import Mathlib

/-!
Verification development for the MCP-Elastic-Synthetics journey system.

The repository ships two concrete journey files
(`src/elk-store.journey.ts`, `src/example-tests/auth-test.journey.ts`)
which are embedded below as concrete `Skeleton` values.  The merge
engine, generation strategies, deployment orchestrator and request
router live in the MCP server (`elastic_synthetics_server.py`), which is
not part of the visible sources; those components are modelled from the
specification, as flagged in their doc comments.
-/

namespace Synthetics

/-- The kind of one test action, as in the Step Descriptor data model:
navigate, assert_visible, assert_text, click, screenshot, custom. -/
inductive StepKind where
  | navigate
  | assert_visible
  | assert_text
  | click
  | screenshot
  | custom
deriving DecidableEq, Repr

/-- Failure policy of a step.  In the journey sources, a step whose body
wraps its assertions in a try/catch that only logs continues the journey
on failure (`cont`); a step whose expectations run unguarded aborts the
journey on failure (`abort`). -/
inductive OnFailure where
  | cont
  | abort
deriving DecidableEq, Repr

/-- Step Descriptor: a semantic container representing one test action.
`title` is the step title string from the journey file, `target` a
selector or URL, `params` extra parameters, `onFailure` the failure
policy. -/
structure StepDescriptor where
  title : String
  kind : StepKind
  target : String
  params : List (String × String)
  onFailure : OnFailure
deriving DecidableEq, Repr

/-- The replaceable middle region of a Skeleton: either a parsed
sequence of Step Descriptors (verified) or a raw opaque text block
tagged unverified. -/
inductive GeneratedRegion where
  | verified (steps : List StepDescriptor)
  | unverified (rawText : String)
deriving DecidableEq, Repr

/-- Journey Skeleton: the persisted artifact with three ordered
sections (header, generated region, footer), a name and a version. -/
structure Skeleton where
  name : String
  header : List StepDescriptor
  generatedRegion : GeneratedRegion
  footer : List StepDescriptor
  version : Nat
deriving DecidableEq, Repr

/-! ## Concrete journeys embedded from the sources -/

/-- The navigation step of `src/elk-store.journey.ts` (lines 11-14):
goto the store URL then waitForLoadState networkidle; unguarded. -/
def elkNavigateStep : StepDescriptor :=
  StepDescriptor.mk "Navigate to https://react-elk-store.vercel.app"
    StepKind.navigate "https://react-elk-store.vercel.app"
    [("waitForLoadState", "networkidle")] OnFailure.abort

/-- The title-verification step of `src/elk-store.journey.ts`
(lines 16-32): a conditional toHaveTitle assertion wrapped in a
catch-all handler that logs and continues. -/
def titleCheckStep : StepDescriptor :=
  StepDescriptor.mk "Verify page title" StepKind.assert_text
    "document.title" [("pattern", "/.+/")] OnFailure.cont

/-- The load-performance step of `src/elk-store.journey.ts`
(lines 34-41): evaluates loadEventEnd - startTime of the first
navigation performance entry and asserts it is below 5000 ms,
unguarded. -/
def loadTimeStep : StepDescriptor :=
  StepDescriptor.mk "Check page load performance" StepKind.custom
    "performance.navigation" [("thresholdMs", "5000")] OnFailure.abort

/-- The interactive-elements probe of `src/elk-store.journey.ts`
(lines 43-56): counts buttons and, when present, checks the first is
visible; wrapped in a catch-all handler that logs and continues. -/
def interactiveElementsStep : StepDescriptor :=
  StepDescriptor.mk "Check interactive elements" StepKind.custom
    "button, input[type=\"submit\"], .btn" [] OnFailure.cont

/-- The screenshot step of `src/elk-store.journey.ts` (lines 58-60). -/
def elkScreenshotStep : StepDescriptor :=
  StepDescriptor.mk "Take screenshot" StepKind.screenshot
    "elk-store_screenshot.png" [] OnFailure.abort

/-- The final body-visibility assertion of `src/elk-store.journey.ts`
(lines 62-64): expects the body locator to be visible, unguarded. -/
def elkBodyVisibleStep : StepDescriptor :=
  StepDescriptor.mk "Verify page is visible" StepKind.assert_visible
    "body" [] OnFailure.abort

/-- The three generated-region steps of `src/elk-store.journey.ts`:
a title check, a load-time check, an interactive-element probe. -/
def elkStoreRegion : List StepDescriptor :=
  [titleCheckStep, loadTimeStep, interactiveElementsStep]

/-- The whole `elk-store` journey of `src/elk-store.journey.ts` as a
Skeleton. -/
def elkStore : Skeleton :=
  Skeleton.mk "elk-store" [elkNavigateStep]
    (GeneratedRegion.verified elkStoreRegion)
    [elkScreenshotStep, elkBodyVisibleStep] 1

/-- The guarded navigation step of
`src/example-tests/auth-test.journey.ts` (lines 8-11). -/
def authNavigateStep : StepDescriptor :=
  StepDescriptor.mk
    "Navigate to https://www.elastic.co/search-labs/blog/build-rag-app-elastic"
    StepKind.navigate
    "https://www.elastic.co/search-labs/blog/build-rag-app-elastic"
    [("waitForLoadState", "networkidle")] OnFailure.abort

/-- The LLM-generated safe-region steps of
`src/example-tests/auth-test.journey.ts` (lines 13-48). -/
def authRegion : List StepDescriptor :=
  [StepDescriptor.mk "Verify the article title is present"
     StepKind.assert_visible "h1" [] OnFailure.cont,
   StepDescriptor.mk "Check for author name \"Alessandro Brofferio\""
     StepKind.assert_visible "text=Alessandro Brofferio" [] OnFailure.cont,
   StepDescriptor.mk "Verify social sharing buttons are functional"
     StepKind.custom "button[aria-label=\"Share on Twitter\"]" []
     OnFailure.cont]

/-- The whole `auth-test` journey of
`src/example-tests/auth-test.journey.ts` as a Skeleton. -/
def authTest : Skeleton :=
  Skeleton.mk "auth-test" [authNavigateStep]
    (GeneratedRegion.verified authRegion)
    [StepDescriptor.mk "Screenshot" StepKind.screenshot
       "auth-test_screenshot.png" [] OnFailure.abort,
     StepDescriptor.mk "Body visible" StepKind.assert_visible "body" []
       OnFailure.abort] 1

/-! ## Structural invariant on Skeletons -/

/-- Whether the pattern is a prefix of the character list. -/
def isPrefixChars : List Char → List Char → Bool
  | [], _ => true
  | _ :: _, [] => false
  | a :: asx, b :: bs => a == b && isPrefixChars asx bs

/-- Whether the pattern occurs as a contiguous sublist. -/
def hasSub (pat : List Char) : List Char → Bool
  | [] => isPrefixChars pat []
  | c :: rest => isPrefixChars pat (c :: rest) || hasSub pat rest

/-- The distinguishing text of the generated-region delimiting markers
(the BEGIN/END LLM STEPS convention seen in auth-test.journey.ts). -/
def markerText : String := "LLM STEPS"

/-- Whether a string contains the region-marker text. -/
def hasMarker (s : String) : Bool := hasSub markerText.data s.data

/-- Whether any textual field of a step contains the region-marker
text. -/
def stepHasMarker (s : StepDescriptor) : Bool :=
  hasMarker s.title || hasMarker s.target ||
    s.params.any (fun p => hasMarker p.1 || hasMarker p.2)

/-- Header invariant: the header begins with a navigate step and
contains exactly one navigate step. -/
def headerOK : List StepDescriptor → Bool
  | [] => false
  | s :: rest =>
      s.kind == StepKind.navigate &&
        (s :: rest).countP (fun t => t.kind == StepKind.navigate) == 1

/-- Whether a step is the whole-page-root visibility assertion. -/
def isRootVisible (s : StepDescriptor) : Bool :=
  s.kind == StepKind.assert_visible && s.target == "body"

/-- Footer invariant: the footer ends with an assert_visible on the
whole-page root, and contains exactly one such step. -/
def footerOK (f : List StepDescriptor) : Bool :=
  match f.getLast? with
  | none => false
  | some s => isRootVisible s && f.countP isRootVisible == 1

/-- The structural invariant on Skeletons: header begins with exactly
one navigate step, footer ends with exactly one assert_visible on the
whole-page root, and the region markers never appear inside header or
footer. -/
def skeletonWF (sk : Skeleton) : Bool :=
  headerOK sk.header && footerOK sk.footer &&
    (sk.header ++ sk.footer).all (fun s => !stepHasMarker s)

/-! ## Merge Engine (spec-modelled: the server is not under src/) -/

/-- Error of the Merge Engine: an internal invariant violation. -/
inductive MergeError where
  | mergeFailure
deriving DecidableEq, Repr

/-- Modelled from the spec: the fixed Header template synthesized by
the Merge Engine of `elastic_synthetics_server.py` (not under src/)
when no prior Skeleton exists — a single guarded navigate step with an
implicit waitForLoadState-equivalent, as exhibited by both journey
files. -/
def fixedHeader (url : String) : List StepDescriptor :=
  [StepDescriptor.mk ("Navigate to " ++ url) StepKind.navigate url
     [("waitForLoadState", "networkidle")] OnFailure.abort]

/-- Modelled from the spec: the fixed Footer template synthesized by
the Merge Engine of `elastic_synthetics_server.py` (not under src/) —
a screenshot step then an assert_visible on the whole-page root, as
exhibited by both journey files. -/
def fixedFooter (testName : String) : List StepDescriptor :=
  [StepDescriptor.mk "Screenshot" StepKind.screenshot
     (testName ++ "_screenshot.png") [] OnFailure.abort,
   StepDescriptor.mk "Body visible" StepKind.assert_visible "body" []
     OnFailure.abort]

/-- The candidate Skeleton a merge would produce: synthesized from the
fixed templates when no prior Skeleton exists, otherwise the prior
Skeleton with the generated region replaced wholesale and the version
incremented, Header and Footer copied by value. -/
def mergeCandidate (prior : Option Skeleton) (testName url : String)
    (payload : GeneratedRegion) : Skeleton :=
  match prior with
  | none =>
      Skeleton.mk testName (fixedHeader url) payload
        (fixedFooter testName) 1
  | some sk =>
      Skeleton.mk sk.name sk.header payload sk.footer (sk.version + 1)

/-- Modelled from the spec: the Merge Engine of
`elastic_synthetics_server.py` (not under src/).  It produces the
candidate Skeleton when the structural invariant holds, and signals
`mergeFailure` (internal invariant violation) otherwise, producing
nothing. -/
def merge (prior : Option Skeleton) (testName url : String)
    (payload : GeneratedRegion) : Except MergeError Skeleton :=
  if skeletonWF (mergeCandidate prior testName url payload) = true then
    Except.ok (mergeCandidate prior testName url payload)
  else
    Except.error MergeError.mergeFailure

/-- The caller-observable state transition of a merge: on success the
stored Skeleton becomes the new one and no error is signaled; on
failure the old state is kept completely unchanged and the error is
signaled. -/
def mergeState (st : Option Skeleton) (testName url : String)
    (payload : GeneratedRegion) :
    Option Skeleton × Option MergeError :=
  match merge st testName url payload with
  | Except.ok sk => (some sk, none)
  | Except.error e => (st, some e)

/-- A sequence of merges on the same test name, failing as a whole as
soon as one merge fails. -/
def mergeAll (sk : Skeleton) (testName url : String) :
    List GeneratedRegion → Except MergeError Skeleton
  | [] => Except.ok sk
  | p :: rest =>
      match merge (some sk) testName url p with
      | Except.ok sk2 => mergeAll sk2 testName url rest
      | Except.error e => Except.error e

/-! ## Generation strategies (spec-modelled) -/

/-- Generation strategy selector. -/
inductive Strategy where
  | template
  | prompt
deriving DecidableEq, Repr

/-- Generation Request: test name, target URL, schedule, strategy and
an optional prompt text. -/
structure GenerationRequest where
  testName : String
  targetUrl : String
  schedule : String
  strategy : Strategy
  promptText : Option String
deriving DecidableEq, Repr

/-- Modelled from the spec: the Template Strategy of
`elastic_synthetics_server.py` (not under src/): a pure, deterministic
expansion producing the fixed baseline generated-region steps for a
URL — a title check, a load-time check, an interactive-element probe —
as exhibited by `src/elk-store.journey.ts`.  Header and footer steps
are never emitted. -/
def templateSteps (_url : String) : List StepDescriptor :=
  elkStoreRegion

/-- The Template Strategy generate entry point on a request. -/
def templateGenerate (r : GenerationRequest) : List StepDescriptor :=
  templateSteps r.targetUrl

/-- Modelled from the spec: the recognized action verbs of the strict
step grammar used by the Model Strategy of
`elastic_synthetics_server.py` (not under src/). -/
def recognizedVerb (v : String) : Option StepKind :=
  if v == "navigate" then some StepKind.navigate
  else if v == "click" then some StepKind.click
  else if v == "assert_visible" then some StepKind.assert_visible
  else if v == "assert_text" then some StepKind.assert_text
  else if v == "screenshot" then some StepKind.screenshot
  else none

/-- Splits a character list at every occurrence of the separator. -/
def splitChars (sep : Char) : List Char → List (List Char)
  | [] => [[]]
  | c :: rest =>
      match splitChars sep rest with
      | [] => if c == sep then [[], []] else [[c]]
      | w :: ws =>
          if c == sep then [] :: w :: ws else (c :: w) :: ws

/-- Splits a string at every occurrence of the separator character. -/
def splitStr (sep : Char) (s : String) : List String :=
  (splitChars sep s.data).map (fun cs => String.mk cs)

/-- Whether a string has no characters. -/
def strIsEmpty (s : String) : Bool := s.data.isEmpty

/-- Joins strings with a separator. -/
def joinWith (sep : String) : List String → String
  | [] => ""
  | [s] => s
  | s :: rest => s ++ sep ++ joinWith sep rest

/-- Modelled from the spec: one line of the strict step grammar — a
recognized action verb followed by a target. -/
def parseLine (line : String) : Option StepDescriptor :=
  match splitStr ' ' line with
  | [] => none
  | verb :: rest =>
      if rest.isEmpty then none
      else
        (recognizedVerb verb).map fun k =>
          StepDescriptor.mk line k (joinWith " " rest) []
            OnFailure.abort

/-- Modelled from the spec: the strict-grammar parse of the Model
Strategy output — every nonempty line must parse, otherwise the whole
text fails to parse. -/
def parseSteps (text : String) : Option (List StepDescriptor) :=
  let lines := (splitStr '\n' text).filter (fun l => !strIsEmpty l)
  if lines.isEmpty then none
  else lines.mapM parseLine

/-- Modelled from the spec: the Model Strategy of
`elastic_synthetics_server.py` (not under src/) turns the external
generation output into a region: parsed Step Descriptors when the
strict grammar matches, otherwise the raw text verbatim as an opaque
block tagged unverified. -/
def modelGenerate (text : String) : GeneratedRegion :=
  match parseSteps text with
  | some steps => GeneratedRegion.verified steps
  | none => GeneratedRegion.unverified text

/-! ## Deployment Orchestrator (spec-modelled) -/

/-- Deployment state recorded for a pushed version. -/
inductive DeployState where
  | pending
  | pushed
  | failed
deriving DecidableEq, Repr

/-- Deployment Record: persisted per test name so a retried deployment
can detect an already-pushed version. -/
structure DeploymentRecord where
  testName : String
  version : Nat
  remoteMonitorId : Option String
  lastDeployState : DeployState
deriving DecidableEq, Repr

/-- Outcome of a deployment. -/
inductive DeployOutcome where
  | pushed (remoteMonitorId : String)
  | failed (reason : String)
  | skipped
deriving DecidableEq, Repr

/-- Result of a deploy call: the updated Deployment Record, the
outcome, and how many times the external CLI was invoked. -/
structure DeployResult where
  record : DeploymentRecord
  outcome : DeployOutcome
  cliCalls : Nat
deriving DecidableEq, Repr

/-- Printable name of a step kind, for serialization. -/
def kindName : StepKind → String
  | StepKind.navigate => "navigate"
  | StepKind.assert_visible => "assert_visible"
  | StepKind.assert_text => "assert_text"
  | StepKind.click => "click"
  | StepKind.screenshot => "screenshot"
  | StepKind.custom => "custom"

/-- One serialized step block. -/
def renderStep (s : StepDescriptor) : String :=
  "step " ++ s.title ++ ": " ++ kindName s.kind ++ " " ++ s.target

/-- Serialized text of a generated region: rendered step blocks, or
the raw unverified block verbatim. -/
def renderRegion : GeneratedRegion → String
  | GeneratedRegion.verified steps =>
      String.intercalate "\n" (steps.map renderStep)
  | GeneratedRegion.unverified raw => raw

/-- The BEGIN marker line of the safe region. -/
def beginMarker : String := "// ==== BEGIN LLM STEPS (safe region) ===="

/-- The END marker line of the safe region. -/
def endMarker : String := "// ==== END LLM STEPS ===="

/-- Modelled from the spec: serialization of a Skeleton into the
external journey-file textual format (ordered step blocks, the
generated region delimited by the markers). -/
def serialize (sk : Skeleton) : String :=
  String.intercalate "\n"
    (sk.header.map renderStep ++
      [beginMarker, renderRegion sk.generatedRegion, endMarker] ++
      sk.footer.map renderStep)

/-- Running the external CLI on a serialized Skeleton: on success the
record becomes pushed with the returned monitor id, on failure it
becomes failed; either way the CLI was invoked once. -/
def deployRun (cli : String → Except String String) (sk : Skeleton) :
    DeployResult :=
  match cli (serialize sk) with
  | Except.ok mid =>
      DeployResult.mk
        (DeploymentRecord.mk sk.name sk.version (some mid)
          DeployState.pushed)
        (DeployOutcome.pushed mid) 1
  | Except.error reason =>
      DeployResult.mk
        (DeploymentRecord.mk sk.name sk.version none DeployState.failed)
        (DeployOutcome.failed reason) 1

/-- Modelled from the spec: the Deployment Orchestrator of
`elastic_synthetics_server.py` (not under src/).  Before invoking the
external CLI it checks the Deployment Record for this test name and
version: if that exact version was already pushed, it returns skipped
without re-invoking the CLI. -/
def deploy (cli : String → Except String String)
    (rec : Option DeploymentRecord) (sk : Skeleton) : DeployResult :=
  match rec with
  | some r =>
      if r.testName = sk.name ∧ r.version = sk.version ∧
          r.lastDeployState = DeployState.pushed then
        DeployResult.mk r DeployOutcome.skipped 0
      else deployRun cli sk
  | none => deployRun cli sk

/-! ## Request Router (spec-modelled) -/

/-- Errors signaled by the Router before or during generation. -/
inductive RouterError where
  | invalidRequest
  | generationUnavailable
deriving DecidableEq, Repr

/-- Whether a string is a syntactically valid absolute URL: an
http or https scheme followed by a nonempty remainder. -/
def isValidAbsoluteUrl (s : String) : Bool :=
  (isPrefixChars "http://".data s.data && decide (7 < s.length)) ||
    (isPrefixChars "https://".data s.data && decide (8 < s.length))

/-- Whether an optional prompt text is absent or empty. -/
def promptEmpty : Option String → Bool
  | none => true
  | some t => t.isEmpty

/-- Prompt-text validity: required and nonempty exactly when the
strategy is prompt. -/
def promptOk : Strategy → Option String → Bool
  | Strategy.template, _ => true
  | Strategy.prompt, none => false
  | Strategy.prompt, some t => !t.isEmpty

/-- Modelled from the spec: the lightweight request validation of the
Router of `elastic_synthetics_server.py` (not under src/):
`targetUrl` must be a valid absolute URL and `promptText` must be
present and nonempty under the prompt strategy. -/
def validRequest (r : GenerationRequest) : Bool :=
  isValidAbsoluteUrl r.targetUrl && promptOk r.strategy r.promptText

/-- The prompt string sent to the external generation function. -/
def buildPrompt (r : GenerationRequest) : String :=
  r.testName ++ " | " ++ r.targetUrl ++ " | " ++
    (match r.promptText with
     | some t => t
     | none => "")

/-- Modelled from the spec: the Router of
`elastic_synthetics_server.py` (not under src/).  A malformed request
signals invalidRequest before any external call; the template strategy
never calls the external generation function; the prompt strategy
calls it exactly once.  The second component counts external
generation calls. -/
def route (extGen : String → Option String) (r : GenerationRequest) :
    Except RouterError GeneratedRegion × Nat :=
  if validRequest r = true then
    match r.strategy with
    | Strategy.template =>
        (Except.ok (GeneratedRegion.verified (templateGenerate r)), 0)
    | Strategy.prompt =>
        match extGen (buildPrompt r) with
        | none => (Except.error RouterError.generationUnavailable, 1)
        | some text => (Except.ok (modelGenerate text), 1)
  else (Except.error RouterError.invalidRequest, 0)

/-! ## Load-performance computation (from elk-store.journey.ts) -/

/-- A navigation performance entry, with the two timings the
load-performance step reads. -/
structure NavigationEntry where
  startTime : Int
  loadEventEnd : Int
deriving DecidableEq, Repr

/-- The page load time computed by the load-performance step of
`src/elk-store.journey.ts` (lines 35-38): loadEventEnd minus
startTime. -/
def pageLoadTime (loadEventEnd startTime : Int) : Int :=
  loadEventEnd - startTime

/-- The assertion of the load-performance step (line 40):
toBeLessThan 5000, a strict comparison. -/
def loadPerformancePasses (loadEventEnd startTime : Int) : Bool :=
  decide (pageLoadTime loadEventEnd startTime < 5000)

/-- The load time measured from the performance entry list: the step
reads index 0 of getEntriesByType, i.e. the first navigation entry. -/
def measuredLoadTime : List NavigationEntry → Option Int
  | [] => none
  | en :: _ => some (pageLoadTime en.loadEventEnd en.startTime)

/-! ## Helper lemmas on the Merge Engine -/

/-- A successful merge over a prior Skeleton produces exactly the
prior Skeleton with the region replaced and the version incremented. -/
theorem merge_some_shape (sk sk2 : Skeleton) (n u : String)
    (p : GeneratedRegion) (h : merge (some sk) n u p = Except.ok sk2) :
    sk2 = Skeleton.mk sk.name sk.header p sk.footer (sk.version + 1) := by
  unfold merge at h
  split at h
  · injection h with h2
    exact h2.symm
  · exact Except.noConfusion h

/-- A successful merge with no prior Skeleton produces exactly the
synthesized Skeleton at version 1. -/
theorem merge_none_shape (sk2 : Skeleton) (n u : String)
    (p : GeneratedRegion) (h : merge none n u p = Except.ok sk2) :
    sk2 = Skeleton.mk n (fixedHeader u) p (fixedFooter n) 1 := by
  unfold merge at h
  split at h
  · injection h with h2
    exact h2.symm
  · exact Except.noConfusion h

/-- Every Skeleton a merge produces satisfies the structural
invariant. -/
theorem merge_ok_wf (prior : Option Skeleton) (n u : String)
    (p : GeneratedRegion) (sk' : Skeleton)
    (h : merge prior n u p = Except.ok sk') : skeletonWF sk' = true := by
  unfold merge at h
  by_cases hw : skeletonWF (mergeCandidate prior n u p) = true
  · rw [if_pos hw] at h
    injection h with h2
    rw [← h2]
    exact hw
  · rw [if_neg hw] at h
    exact Except.noConfusion h

/-- The structural invariant does not look at the generated region or
the version. -/
theorem skeletonWF_region (sk : Skeleton) (p : GeneratedRegion)
    (v : Nat) :
    skeletonWF (Skeleton.mk sk.name sk.header p sk.footer v) =
      skeletonWF sk := rfl

/-- On a well-formed prior Skeleton, a merge always succeeds and
returns the region-replaced, version-incremented Skeleton. -/
theorem merge_some_of_wf (sk : Skeleton) (n u : String)
    (p : GeneratedRegion) (hwf : skeletonWF sk = true) :
    merge (some sk) n u p =
      Except.ok (Skeleton.mk sk.name sk.header p sk.footer
        (sk.version + 1)) := by
  have hc : skeletonWF (mergeCandidate (some sk) n u p) = true := by
    have he : mergeCandidate (some sk) n u p =
        Skeleton.mk sk.name sk.header p sk.footer (sk.version + 1) := rfl
    rw [he, skeletonWF_region]
    exact hwf
  unfold merge
  rw [if_pos hc]
  rfl

/-- A whole sequence of successful merges preserves header, footer and
name. -/
theorem mergeAll_preserves (n u : String) :
    ∀ (ps : List GeneratedRegion) (sk sk' : Skeleton),
      mergeAll sk n u ps = Except.ok sk' →
      sk'.header = sk.header ∧ sk'.footer = sk.footer ∧
        sk'.name = sk.name := by
  intro ps
  induction ps with
  | nil =>
      intro sk sk' h
      simp only [mergeAll] at h
      injection h with h2
      rw [← h2]
      exact ⟨rfl, rfl, rfl⟩
  | cons p rest ih =>
      intro sk sk' h
      simp only [mergeAll] at h
      cases hm : merge (some sk) n u p with
      | ok sk2 =>
          rw [hm] at h
          have h3 := ih sk2 sk' h
          rw [merge_some_shape sk sk2 n u p hm] at h3
          exact h3
      | error e =>
          rw [hm] at h
          exact Except.noConfusion h

/-! ## Helper lemmas on the Deployment Orchestrator -/

/-- Running deploy with no prior record invokes the CLI; on CLI
success the outcome is pushed with the returned monitor id. -/
theorem deploy_fresh (cli : String → Except String String)
    (sk : Skeleton) (mid : String)
    (h : cli (serialize sk) = Except.ok mid) :
    deploy cli none sk =
      DeployResult.mk
        (DeploymentRecord.mk sk.name sk.version (some mid)
          DeployState.pushed)
        (DeployOutcome.pushed mid) 1 := by
  show deployRun cli sk = _
  unfold deployRun
  rw [h]

/-- Deploying against a record already pushed for this exact test name
and version is skipped without invoking the CLI. -/
theorem deploy_skip (cli : String → Except String String)
    (r : DeploymentRecord) (sk : Skeleton) (h1 : r.testName = sk.name)
    (h2 : r.version = sk.version)
    (h3 : r.lastDeployState = DeployState.pushed) :
    deploy cli (some r) sk = DeployResult.mk r DeployOutcome.skipped 0 := by
  have hd : deploy cli (some r) sk =
      if r.testName = sk.name ∧ r.version = sk.version ∧
          r.lastDeployState = DeployState.pushed then
        DeployResult.mk r DeployOutcome.skipped 0
      else deployRun cli sk := rfl
  rw [hd, if_pos ⟨h1, h2, h3⟩]

/-! ## The claims -/

/-- C1: for every sequence of successful merge operations on the same
testName, the Header and Footer step sequences of the resulting
Skeletons are byte-identical across all versions; a merge changes only
the generatedRegion and the version field, with the Header and Footer
copied unchanged from the prior Skeleton. -/
theorem spec_C1 (sk : Skeleton) (n u : String) :
    (∀ (ps : List GeneratedRegion) (sk' : Skeleton),
        mergeAll sk n u ps = Except.ok sk' →
        sk'.header = sk.header ∧ sk'.footer = sk.footer ∧
          sk'.name = sk.name)
  ∧ (∀ (p : GeneratedRegion) (sk' : Skeleton),
        merge (some sk) n u p = Except.ok sk' →
        sk' = Skeleton.mk sk.name sk.header p sk.footer
          (sk.version + 1)) :=
  ⟨fun ps sk' h => mergeAll_preserves n u ps sk sk' h,
   fun p sk' h => merge_some_shape sk sk' n u p h⟩

/-- Witness for C1 at the concrete auth-test journey: one regeneration
keeps the header. -/
theorem spec_C1_witness :
    (Skeleton.mk "auth-test" authTest.header
      (GeneratedRegion.unverified "regen-1") authTest.footer 2).header =
      authTest.header :=
  ((spec_C1 authTest "auth-test"
      "https://www.elastic.co/search-labs/blog/build-rag-app-elastic").1
    [GeneratedRegion.unverified "regen-1"]
    (Skeleton.mk "auth-test" authTest.header
      (GeneratedRegion.unverified "regen-1") authTest.footer 2) rfl).1

/-- C2: for every successful merge the version increases by exactly 1;
it never decreases, never skips a value on failure (the old Skeleton
stands untouched), and advances even when the newly merged payload is
identical in content to the previous one. -/
theorem spec_C2 (sk : Skeleton) (n u : String) (p : GeneratedRegion) :
    (∀ sk' : Skeleton, merge (some sk) n u p = Except.ok sk' →
        sk'.version = sk.version + 1)
  ∧ (∀ e : MergeError, merge (some sk) n u p = Except.error e →
        mergeState (some sk) n u p = (some sk, some e))
  ∧ (∀ sk' : Skeleton, mergeState (some sk) n u p = (some sk', none) →
        sk.version < sk'.version)
  ∧ (∀ sk' : Skeleton,
        merge (some sk) n u sk.generatedRegion = Except.ok sk' →
        sk'.version = sk.version + 1) := by
  refine ⟨?_, ?_, ?_, ?_⟩
  · intro sk' h
    rw [merge_some_shape sk sk' n u p h]
  · intro e h
    unfold mergeState
    rw [h]
  · intro sk' h
    cases hm : merge (some sk) n u p with
    | ok sk2 =>
        unfold mergeState at h
        rw [hm] at h
        have h2 : sk2 = sk' := by
          have := congrArg Prod.fst h
          simpa using this
        rw [← h2, merge_some_shape sk sk2 n u p hm]
        exact Nat.lt_succ_self _
    | error e =>
        unfold mergeState at h
        rw [hm] at h
        have := congrArg Prod.snd h
        simp at this
  · intro sk' h
    rw [merge_some_shape sk sk' n u sk.generatedRegion h]

/-- Witness for C2 at the concrete auth-test journey: re-merging the
identical region content still advances the version to 2. -/
theorem spec_C2_witness :
    (Skeleton.mk "auth-test" authTest.header authTest.generatedRegion
      authTest.footer 2).version = authTest.version + 1 :=
  (spec_C2 authTest "auth-test" "u" authTest.generatedRegion).2.2.2
    (Skeleton.mk "auth-test" authTest.header authTest.generatedRegion
      authTest.footer 2) rfl

/-- C3: the merge is atomic — for every input either the full new
Skeleton is produced (region replaced, header and footer exactly those
of the prior Skeleton or of the fixed templates, version advanced), or
an error is signaled and the old state is returned completely
unchanged; no partial replacement is observable. -/
theorem spec_C3 (st : Option Skeleton) (n u : String)
    (p : GeneratedRegion) :
    (∃ sk' : Skeleton, mergeState st n u p = (some sk', none) ∧
        sk'.generatedRegion = p ∧
        (∀ sk0 : Skeleton, st = some sk0 →
            sk'.header = sk0.header ∧ sk'.footer = sk0.footer ∧
              sk'.name = sk0.name ∧ sk'.version = sk0.version + 1) ∧
        (st = none →
            sk'.header = fixedHeader u ∧ sk'.footer = fixedFooter n ∧
              sk'.version = 1))
  ∨ mergeState st n u p = (st, some MergeError.mergeFailure) := by
  cases hm : merge st n u p with
  | ok sk2 =>
      left
      refine ⟨sk2, by unfold mergeState; rw [hm], ?_, ?_, ?_⟩
      · cases st with
        | none => rw [merge_none_shape sk2 n u p hm]
        | some sk0 => rw [merge_some_shape sk0 sk2 n u p hm]
      · intro sk0 hst
        subst hst
        rw [merge_some_shape sk0 sk2 n u p hm]
        exact ⟨rfl, rfl, rfl, rfl⟩
      · intro hst
        subst hst
        rw [merge_none_shape sk2 n u p hm]
        exact ⟨rfl, rfl, rfl⟩
  | error e =>
      right
      cases e
      unfold mergeState
      rw [hm]

/-- Witness for C3: the disjunction at a concrete input, the auth-test
journey with a fresh opaque payload. -/
theorem spec_C3_witness :
    (∃ sk' : Synthetics.Skeleton,
        mergeState (some authTest) "auth-test" "u"
            (GeneratedRegion.unverified "z") = (some sk', none) ∧
        sk'.generatedRegion = GeneratedRegion.unverified "z" ∧
        (∀ sk0 : Skeleton, some authTest = some sk0 →
            sk'.header = sk0.header ∧ sk'.footer = sk0.footer ∧
              sk'.name = sk0.name ∧ sk'.version = sk0.version + 1) ∧
        (some authTest = none →
            sk'.header = fixedHeader "u" ∧
              sk'.footer = fixedFooter "auth-test" ∧ sk'.version = 1))
  ∨ mergeState (some authTest) "auth-test" "u"
      (GeneratedRegion.unverified "z") =
        (some authTest, some MergeError.mergeFailure) :=
  spec_C3 (some authTest) "auth-test" "u" (GeneratedRegion.unverified "z")

/-- C4: deploying twice with an unchanged Skeleton version yields
pushed with the remote monitor id then skipped, without re-invoking
the external CLI on the second call (zero CLI calls, for any CLI), and
never two distinct remote monitor identifiers for the same test name
and version. -/
theorem spec_C4 (cli : String → Except String String) (sk : Skeleton)
    (mid : String) (h : cli (serialize sk) = Except.ok mid) :
    (deploy cli none sk).outcome = DeployOutcome.pushed mid
  ∧ (deploy cli none sk).cliCalls = 1
  ∧ (deploy cli none sk).record =
      DeploymentRecord.mk sk.name sk.version (some mid)
        DeployState.pushed
  ∧ ∀ cli2 : String → Except String String,
      deploy cli2 (some (deploy cli none sk).record) sk =
        DeployResult.mk (deploy cli none sk).record
          DeployOutcome.skipped 0 := by
  have hd := deploy_fresh cli sk mid h
  refine ⟨by rw [hd], by rw [hd], by rw [hd], ?_⟩
  intro cli2
  rw [hd]
  exact deploy_skip cli2 _ sk rfl rfl rfl

/-- Witness for C4: a first deploy of the elk-store journey against a
CLI that returns monitor id mon-123 is pushed. -/
theorem spec_C4_witness :
    (deploy (fun _ => Except.ok "mon-123") none elkStore).outcome =
      DeployOutcome.pushed "mon-123" :=
  (spec_C4 (fun _ => Except.ok "mon-123") elkStore "mon-123" rfl).1

/-- C5: a Generation Request with strategy prompt and an empty (or
absent) promptText, or with an invalid targetUrl, signals
invalidRequest and the external generation function is never called
(zero external calls, for any external function). -/
theorem spec_C5 (extGen : String → Option String)
    (r : GenerationRequest)
    (h : (r.strategy = Strategy.prompt ∧
            promptEmpty r.promptText = true) ∨
         isValidAbsoluteUrl r.targetUrl = false) :
    route extGen r = (Except.error RouterError.invalidRequest, 0) := by
  have hv : validRequest r = false := by
    unfold validRequest
    rcases h with ⟨hs, he⟩ | hu
    · have hp : promptOk r.strategy r.promptText = false := by
        rw [hs]
        cases hpt : r.promptText with
        | none => rfl
        | some t =>
            rw [hpt] at he
            simp only [promptEmpty] at he
            show (!t.isEmpty) = false
            rw [he]
            rfl
      rw [hp, Bool.and_false]
    · rw [hu, Bool.false_and]
  unfold route
  rw [if_neg (by rw [hv]; exact Bool.false_ne_true)]

/-- Witness for C5: a prompt-strategy request with an empty prompt
text is rejected before the external generation function runs, even
though that function would answer. -/
theorem spec_C5_witness :
    route (fun _ => some "generated steps")
      (GenerationRequest.mk "auth-test" "https://www.elastic.co"
        "@every 10m" Strategy.prompt (some "")) =
      (Except.error RouterError.invalidRequest, 0) :=
  spec_C5 (fun _ => some "generated steps")
    (GenerationRequest.mk "auth-test" "https://www.elastic.co"
      "@every 10m" Strategy.prompt (some ""))
    (Or.inl ⟨rfl, rfl⟩)

/-- C6: Model Strategy output that does not parse under the strict
step grammar is stored verbatim as an opaque unverified block, and the
merge still produces a valid, deployable Skeleton: the merge succeeds,
the result satisfies the structural invariant, and a deploy of it
pushes whenever the CLI accepts it. -/
theorem spec_C6 (text : String) (sk : Skeleton) (n u : String)
    (hp : parseSteps text = none) (hwf : skeletonWF sk = true) :
    modelGenerate text = GeneratedRegion.unverified text
  ∧ merge (some sk) n u (modelGenerate text) =
      Except.ok (Skeleton.mk sk.name sk.header
        (GeneratedRegion.unverified text) sk.footer (sk.version + 1))
  ∧ skeletonWF (Skeleton.mk sk.name sk.header
      (GeneratedRegion.unverified text) sk.footer (sk.version + 1)) =
        true
  ∧ ∀ (cli : String → Except String String) (mid : String),
      cli (serialize (Skeleton.mk sk.name sk.header
          (GeneratedRegion.unverified text) sk.footer
          (sk.version + 1))) = Except.ok mid →
      (deploy cli none (Skeleton.mk sk.name sk.header
          (GeneratedRegion.unverified text) sk.footer
          (sk.version + 1))).outcome = DeployOutcome.pushed mid := by
  have hm : modelGenerate text = GeneratedRegion.unverified text := by
    unfold modelGenerate
    rw [hp]
  refine ⟨hm, ?_, ?_, ?_⟩
  · rw [hm]
    exact merge_some_of_wf sk n u _ hwf
  · rw [skeletonWF_region]
    exact hwf
  · intro cli mid hc
    rw [deploy_fresh cli _ mid hc]

/-- Witness for C6: a free-text generation output that matches no step
grammar is kept verbatim as an unverified block. -/
theorem spec_C6_witness :
    modelGenerate "free text output of the model" =
      GeneratedRegion.unverified "free text output of the model" :=
  (spec_C6 "free text output of the model" authTest "auth-test" "u"
    rfl rfl).1

/-- C7: every Skeleton produced by a merge satisfies the structural
invariant (header begins with exactly one navigate step, footer ends
with exactly one assert_visible on the whole-page root, region markers
never inside header or footer), and both concrete journey files
satisfy it. -/
theorem spec_C7 :
    (∀ (prior : Option Skeleton) (n u : String) (p : GeneratedRegion)
        (sk' : Skeleton), merge prior n u p = Except.ok sk' →
        skeletonWF sk' = true)
  ∧ skeletonWF elkStore = true
  ∧ skeletonWF authTest = true :=
  ⟨fun prior n u p sk' h => merge_ok_wf prior n u p sk' h, rfl, rfl⟩

/-- Witness for C7: a fresh merge for a concrete test name and URL
produces a well-formed Skeleton. -/
theorem spec_C7_witness :
    skeletonWF (Skeleton.mk "home-check"
      (fixedHeader "https://example.com")
      (GeneratedRegion.verified elkStoreRegion)
      (fixedFooter "home-check") 1) = true :=
  spec_C7.1 none "home-check" "https://example.com"
    (GeneratedRegion.verified elkStoreRegion)
    (Skeleton.mk "home-check" (fixedHeader "https://example.com")
      (GeneratedRegion.verified elkStoreRegion)
      (fixedFooter "home-check") 1) rfl

/-- C8: the Template Strategy is pure and deterministic — equal target
URLs give equal step sequences — and its output is exactly the three
generated-region steps (title check, load-time check,
interactive-element probe), never containing a navigate, screenshot or
assert_visible step; the elk-store journey region is exactly this
template output. -/
theorem spec_C8 :
    (∀ r1 r2 : GenerationRequest, r1.targetUrl = r2.targetUrl →
        templateGenerate r1 = templateGenerate r2)
  ∧ (∀ r : GenerationRequest, (templateGenerate r).all
        (fun s => !(s.kind == StepKind.navigate) &&
          !(s.kind == StepKind.screenshot) &&
          !(s.kind == StepKind.assert_visible)) = true)
  ∧ (∀ u : String, templateSteps u =
        [titleCheckStep, loadTimeStep, interactiveElementsStep])
  ∧ elkStore.generatedRegion = GeneratedRegion.verified
      (templateSteps "https://react-elk-store.vercel.app") :=
  ⟨fun _ _ _ => rfl, fun _ => rfl, fun _ => rfl, rfl⟩

/-- Witness for C8: two requests sharing a target URL but differing
everywhere else get the same template output. -/
theorem spec_C8_witness :
    templateGenerate (GenerationRequest.mk "a"
        "https://react-elk-store.vercel.app" "@every 10m"
        Strategy.template none) =
      templateGenerate (GenerationRequest.mk "b"
        "https://react-elk-store.vercel.app" "@every 20m"
        Strategy.template none) :=
  spec_C8.1
    (GenerationRequest.mk "a" "https://react-elk-store.vercel.app"
      "@every 10m" Strategy.template none)
    (GenerationRequest.mk "b" "https://react-elk-store.vercel.app"
      "@every 20m" Strategy.template none) rfl

/-- C9: in the elk-store journey, the title-verification step and the
interactive-elements step continue on failure (their assertions are
wrapped in catch-all handlers that only log), whereas the
load-performance step and the footer body-visibility assertion run
unguarded and abort the journey on failure. -/
theorem spec_C9 :
    titleCheckStep.onFailure = OnFailure.cont
  ∧ interactiveElementsStep.onFailure = OnFailure.cont
  ∧ loadTimeStep.onFailure = OnFailure.abort
  ∧ elkBodyVisibleStep.onFailure = OnFailure.abort
  ∧ elkStore.generatedRegion = GeneratedRegion.verified
      [titleCheckStep, loadTimeStep, interactiveElementsStep]
  ∧ elkStore.footer.getLast? = some elkBodyVisibleStep :=
  ⟨rfl, rfl, rfl, rfl, rfl, rfl⟩

/-- C10: the load-performance step computes loadEventEnd minus
startTime of the first navigation performance entry and asserts that
this value is strictly below 5000 ms; a load time of 5000 ms or more
fails the step. -/
theorem spec_C10 :
    (∀ e s : Int,
        loadPerformancePasses e s = true ↔ pageLoadTime e s < 5000)
  ∧ (∀ e s : Int, 5000 ≤ pageLoadTime e s →
        loadPerformancePasses e s = false)
  ∧ (∀ (en : NavigationEntry) (rest : List NavigationEntry),
        measuredLoadTime (en :: rest) =
          some (en.loadEventEnd - en.startTime))
  ∧ loadPerformancePasses 5000 0 = false
  ∧ loadPerformancePasses 4999 0 = true := by
  refine ⟨fun e s => ?_, fun e s h => ?_, fun en rest => rfl,
    by decide, by decide⟩
  · simp [loadPerformancePasses]
  · have hn : ¬ pageLoadTime e s < 5000 := not_lt.mpr h
    simp [loadPerformancePasses, hn]

/-- Witness for C10: a 6000 ms load time fails the step. -/
theorem spec_C10_witness : loadPerformancePasses 6000 0 = false :=
  spec_C10.2.1 6000 0 (by decide)

end Synthetics
